import Mathlib

/-!
Shallow embedding of the `myfootprint` Next.js OSINT lookup routes.

Files embedded:
  * the fetch-based search route (`POST /api/search`, first half of the
    route file): validation, the four per-type search functions
    (`searchEmail`, `searchUsername`, `searchPhone`, `searchName`),
    risk scoring and profile assembly;
  * the python-spawn search route (second half of the same file):
    `runPythonSearch` and its `POST` handler;
  * the photo route (`runPhotoSearch`, `getManualSearchLinks` and its
    `POST` handler);
  * the serverless photo route and the leak-check route are not needed by
    any claim and are not embedded.

External effects (network fetches, spawned processes, the clock, the MD5
digest) are modelled as explicit environment records: each provider's
fetch is an abstract outcome (either a thrown exception, already
stringified, or a response with an HTTP status and a parsed JSON body);
a spawned process's lifecycle is the first settling event (close with an
exit code and captured stdout/stderr, a spawn error, or the timeout
firing first).  JavaScript `undefined` inside object literals is
modelled as JSON `null`.
-/

set_option linter.unusedVariables false

/-- JSON values, modelling the dynamic `Record<string, unknown>` payloads. -/
inductive Json where
  | null
  | bool (b : Bool)
  | num (n : Int)
  | str (s : String)
  | arr (xs : List Json)
  | obj (fields : List (String × Json))

namespace Json

/-- JS property access `j.k`: a field lookup on an object, `undefined`
(here `none`) otherwise. -/
def getField (j : Json) (k : String) : Option Json :=
  match j with
  | .obj fs => (fs.find? (fun p => p.1 == k)).map (fun p => p.2)
  | _ => none

/-- JS truthiness of a value (`[]` and nonempty objects are truthy). -/
def truthy : Json → Bool
  | .null => false
  | .bool b => b
  | .num n => n != 0
  | .str s => s != ""
  | .arr _ => true
  | .obj _ => true

/-- JS `x.length > 0`: meaningful for strings and arrays, `undefined > 0`
(hence `false`) otherwise. -/
def lengthPos : Json → Bool
  | .str s => decide (0 < s.length)
  | .arr xs => decide (0 < xs.length)
  | _ => false

/-- JS property access defaulted to `null` (object-literal fields holding
`undefined` are modelled as JSON null). -/
def getFieldD (j : Json) (k : String) : Json :=
  (j.getField k).getD .null

/-- Extract an optional string-valued field (for `url` assignments). -/
def getStr (j : Json) (k : String) : Option String :=
  match j.getField k with
  | some (.str s) => some s
  | _ => none

end Json

/-- Outcome of one `fetch` (plus the subsequent `.json()` parse where the
code performs one): either the whole `try`-block I/O threw (message
already stringified), or a response arrived with the given HTTP status
and parsed body. -/
inductive FetchOutcome where
  | throws (msg : String)
  | resp (status : Nat) (body : Json)

/-- JS `Response.ok`: status in the 200–299 range. -/
def respOk (status : Nat) : Bool := 200 ≤ status && status < 300

/-- The canonical per-provider record (`SearchResult` in the source). -/
structure SearchResult where
  source : String
  found : Bool
  data : Json
  url : Option String
  timestamp : String

/-- The assembled `summary` object of the profile. -/
structure Summary where
  total_sources : Nat
  matches_found : Nat
  sources_with_data : List String

/-- The assembled `PersonProfile` returned on success. -/
structure PersonProfile where
  query : String
  query_type : String
  results : List SearchResult
  risk_score : Nat
  summary : Summary

/-- Percent-encoding of JS `encodeURIComponent`: every character outside
the unreserved set `A-Z a-z 0-9 - _ . ! ~ * ' ( )` is replaced by the
percent-encoded bytes of its UTF-8 encoding. -/
def uriUnreserved (c : Char) : Bool :=
  c.isAlphanum || c == '-' || c == '_' || c == '.' || c == '!' ||
  c == '~' || c == '*' || c == Char.ofNat 39 || c == '(' || c == ')'

def hexDigit (n : Nat) : Char :=
  if n < 10 then Char.ofNat (48 + n) else Char.ofNat (55 + n)

def pctEncodeByte (b : UInt8) : List Char :=
  ['%', hexDigit (b.toNat / 16), hexDigit (b.toNat % 16)]

def encodeURIComponent (s : String) : String :=
  String.mk (s.toList.flatMap (fun c =>
    if uriUnreserved c then [c]
    else (String.toUTF8 (String.mk [c])).toList.flatMap pctEncodeByte))

/-! ## The fetch-based search route -/

/-- External-world inputs of `searchEmail`: the optional LeakCheck API
key, one fetch outcome per provider, the MD5 hex digest of the
lowercased trimmed email (the `crypto` module is external), and the
capture timestamp `new Date().toISOString()`. -/
structure EmailEnv where
  leakcheckKey : Option String
  leakcheck : FetchOutcome
  github : FetchOutcome
  gravatar : FetchOutcome
  md5hex : String
  now : String

/-- LeakCheck `found` heuristic:
`data.found === true || (data.result && data.result.length > 0)`. -/
def leakFound (body : Json) : Bool :=
  (match body.getField "found" with
   | some (.bool true) => true
   | _ => false)
  ||
  (match body.getField "result" with
   | some r => r.truthy && r.lengthPos
   | none => false)

/-- The LeakCheck block of `searchEmail`: runs only when the API key is
configured; pushes a result in both the success and the catch branch. -/
def lcPart (env : EmailEnv) (email : String) : List SearchResult :=
  match env.leakcheckKey with
  | none => []
  | some _ =>
    match env.leakcheck with
    | .throws e =>
      [{ source := "LeakCheck", found := false,
         data := .obj [("error", .str e)], url := none, timestamp := env.now }]
    | .resp _ body =>
      [{ source := "LeakCheck", found := leakFound body, data := body,
         url := some "https://leakcheck.io", timestamp := env.now }]

/-- The GitHub block of `searchEmail`: a result is pushed only when
`ghResponse.ok`; both a thrown fetch and a non-ok response contribute
nothing (the catch clause is `/* ignore */` and there is no else). -/
def ghEmailPart (env : EmailEnv) (email : String) : List SearchResult :=
  match env.github with
  | .throws _ => []
  | .resp status body =>
    if respOk status then
      [{ source := "GitHub", found := true,
         data := .obj [("login", body.getFieldD "login"),
                       ("name", body.getFieldD "name"),
                       ("bio", body.getFieldD "bio"),
                       ("company", body.getFieldD "company"),
                       ("location", body.getFieldD "location"),
                       ("public_repos", body.getFieldD "public_repos"),
                       ("followers", body.getFieldD "followers"),
                       ("created_at", body.getFieldD "created_at")],
         url := body.getStr "html_url", timestamp := env.now }]
    else []

/-- The Gravatar block of `searchEmail`: a result only on an ok HEAD
response; thrown fetches are ignored. -/
def gravatarPart (env : EmailEnv) (email : String) : List SearchResult :=
  match env.gravatar with
  | .throws _ => []
  | .resp status _ =>
    if respOk status then
      [{ source := "Gravatar", found := true,
         data := .obj [("avatar_url",
           .str ("https://www.gravatar.com/avatar/" ++ env.md5hex))],
         url := some ("https://gravatar.com/" ++ env.md5hex),
         timestamp := env.now }]
    else []

/-- `searchEmail`: the three provider blocks push onto one results array
in program order.  The `deepScan` parameter is declared but never read
in the source. -/
def searchEmail (env : EmailEnv) (email : String) (deepScan : Bool) :
    List SearchResult :=
  lcPart env email ++ ghEmailPart env email ++ gravatarPart env email

/-- One social platform entry: display name plus profile URL. -/
structure Platform where
  name : String
  url : String

/-- The fixed `socialPlatforms` list of `searchUsername` (ten platforms,
URLs templated on the username). -/
def socialPlatforms (username : String) : List Platform :=
  [⟨"Twitter/X", "https://twitter.com/" ++ username⟩,
   ⟨"Instagram", "https://www.instagram.com/" ++ username ++ "/"⟩,
   ⟨"TikTok", "https://www.tiktok.com/@" ++ username⟩,
   ⟨"Reddit", "https://www.reddit.com/user/" ++ username⟩,
   ⟨"Pinterest", "https://www.pinterest.com/" ++ username ++ "/"⟩,
   ⟨"LinkedIn", "https://www.linkedin.com/in/" ++ username⟩,
   ⟨"YouTube", "https://www.youtube.com/@" ++ username⟩,
   ⟨"Twitch", "https://www.twitch.tv/" ++ username⟩,
   ⟨"Medium", "https://medium.com/@" ++ username⟩,
   ⟨"DevTo", "https://dev.to/" ++ username⟩]

/-- External-world inputs of `searchUsername`: the GitHub fetch outcome,
one fetch outcome per social platform (keyed by platform name), and the
capture timestamp. -/
structure UsernameEnv where
  github : FetchOutcome
  platforms : String → FetchOutcome
  now : String

/-- The GitHub block of `searchUsername`: unlike the email variant it
pushes on every path — found profile data on ok, `found:false` with an
empty object on non-ok, `found:false` with an error descriptor when the
fetch throws. -/
def ghUserResult (env : UsernameEnv) (username : String) : SearchResult :=
  match env.github with
  | .throws e =>
    { source := "GitHub", found := false,
      data := .obj [("error", .str e)], url := none, timestamp := env.now }
  | .resp status body =>
    if respOk status then
      { source := "GitHub", found := true,
        data := .obj [("login", body.getFieldD "login"),
                      ("name", body.getFieldD "name"),
                      ("bio", body.getFieldD "bio"),
                      ("company", body.getFieldD "company"),
                      ("location", body.getFieldD "location"),
                      ("blog", body.getFieldD "blog"),
                      ("public_repos", body.getFieldD "public_repos"),
                      ("followers", body.getFieldD "followers"),
                      ("following", body.getFieldD "following"),
                      ("created_at", body.getFieldD "created_at")],
        url := body.getStr "html_url", timestamp := env.now }
    else
      { source := "GitHub", found := false, data := .obj [],
        url := none, timestamp := env.now }

/-- One platform existence check: a HEAD request following redirects;
`found = response.ok && response.status === 200`; a thrown fetch yields
`found:false` with an empty data object. -/
def checkPlatform (env : UsernameEnv) (p : Platform) : SearchResult :=
  match env.platforms p.name with
  | .throws _ =>
    { source := p.name, found := false, data := .obj [],
      url := none, timestamp := env.now }
  | .resp status _ =>
    let found := respOk status && status == 200
    { source := p.name, found := found,
      data := if found then .obj [("profile_url", .str p.url)] else .obj [],
      url := if found then some p.url else none, timestamp := env.now }

/-- The parallel platform checks; `Promise.all` preserves the order of
`socialPlatforms`, so the block is a map over that list. -/
def platformResults (env : UsernameEnv) (username : String) :
    List SearchResult :=
  (socialPlatforms username).map (checkPlatform env)

/-- `searchUsername`: the GitHub result followed by the ten platform
results.  The `deepScan` parameter is declared but never read in the
source. -/
def searchUsername (env : UsernameEnv) (username : String)
    (deepScan : Bool) : List SearchResult :=
  ghUserResult env username :: platformResults env username

/-- External-world inputs of `searchPhone`: the optional Numverify key,
its fetch outcome, and the capture timestamp. -/
structure PhoneEnv where
  numverifyKey : Option String
  numverify : FetchOutcome
  now : String

/-- `phone.replace(/[^\d+]/g, '')`: keep only ASCII digits and plus. -/
def cleanPhone (phone : String) : String :=
  String.mk (phone.toList.filter (fun c => c.isDigit || c == '+'))

/-- Country-code / national-number split of `searchPhone` (JS `&&` binds
tighter than `||` in the first condition). -/
def phoneCountry (cleaned : String) : String × String :=
  if cleaned.startsWith "+1" ||
     (cleaned.startsWith "1" && cleaned.length == 11) then
    ("US/CA", if cleaned.startsWith "+" then cleaned.drop 2 else cleaned.drop 1)
  else if cleaned.startsWith "+44" then
    ("UK", cleaned.drop 3)
  else if cleaned.startsWith "+" then
    ("International", cleaned)
  else
    ("", cleaned)

/-- The always-pushed Phone Parser result (pure parsing, `found: true`). -/
def phoneParserResult (env : PhoneEnv) (phone : String) : SearchResult :=
  let cleaned := cleanPhone phone
  let cc := phoneCountry cleaned
  { source := "Phone Parser", found := true,
    data := .obj [("original", .str phone),
                  ("cleaned", .str cleaned),
                  ("country_code", .str (if cc.1 == "" then "Unknown" else cc.1)),
                  ("national_number", .str cc.2),
                  ("valid_length", .bool (decide (10 ≤ cc.2.length)))],
    url := none, timestamp := env.now }

/-- The Numverify block: runs only with a configured key; a thrown fetch
is ignored (no result pushed); on a response, `found = data.valid === true`
and the status is never inspected. -/
def numverifyPart (env : PhoneEnv) (phone : String) : List SearchResult :=
  match env.numverifyKey with
  | none => []
  | some _ =>
    match env.numverify with
    | .throws _ => []
    | .resp _ body =>
      [{ source := "Numverify",
         found := (match body.getField "valid" with
                   | some (.bool true) => true
                   | _ => false),
         data := .obj [("valid", body.getFieldD "valid"),
                       ("country_name", body.getFieldD "country_name"),
                       ("location", body.getFieldD "location"),
                       ("carrier", body.getFieldD "carrier"),
                       ("line_type", body.getFieldD "line_type")],
         url := none, timestamp := env.now }]

/-- The unconditional Manual Lookups result of `searchPhone` (five fixed
or phone-templated links, `found: true`). -/
def manualPhoneResult (env : PhoneEnv) (phone : String) : SearchResult :=
  let cleaned := cleanPhone phone
  { source := "Manual Lookups", found := true,
    data := .obj [("links", .arr
      [.obj [("name", .str "TrueCaller"), ("url", .str "https://www.truecaller.com/")],
       .obj [("name", .str "WhitePages"),
             ("url", .str ("https://www.whitepages.com/phone/" ++ cleaned))],
       .obj [("name", .str "Spokeo"),
             ("url", .str ("https://www.spokeo.com/phone/" ++ cleaned))],
       .obj [("name", .str "NumLookup"), ("url", .str "https://www.numlookup.com/")],
       .obj [("name", .str "CallerID Test"), ("url", .str "https://calleridtest.com/")]])],
    url := none, timestamp := env.now }

/-- `searchPhone`: parser result, optional Numverify result, then the
manual-lookup links, in program order. -/
def searchPhone (env : PhoneEnv) (phone : String) : List SearchResult :=
  [phoneParserResult env phone] ++ numverifyPart env phone ++
    [manualPhoneResult env phone]

/-- External-world inputs of `searchName`: the CourtListener fetch
outcome and the capture timestamp. -/
structure NameEnv where
  court : FetchOutcome
  now : String

/-- `const [firstName, ...lastParts] = name.split(' ')`: the head word. -/
def firstNameOf (name : String) : String :=
  (name.splitOn " ").headD ""

/-- `lastParts.join(' ')`: everything after the first space. -/
def lastNameOf (name : String) : String :=
  String.intercalate " " (name.splitOn " ").tail

/-- CourtListener `found` heuristic: `data.count > 0` (a JS comparison
that is false on `undefined` or non-numbers). -/
def courtFound (body : Json) : Bool :=
  match body.getField "count" with
  | some (.num n) => decide (0 < n)
  | _ => false

/-- `data.results?.slice(0, 5) || []`: first five entries of the results
array, an empty array otherwise. -/
def courtSlice (body : Json) : Json :=
  match body.getField "results" with
  | some (.arr xs) => .arr (xs.take 5)
  | _ => .arr []

/-- The CourtListener block of `searchName`: a result only on an ok
response; a thrown fetch or a non-ok response contributes nothing. -/
def courtPart (env : NameEnv) (name : String) : List SearchResult :=
  let q := encodeURIComponent (firstNameOf name ++ " " ++ lastNameOf name)
  match env.court with
  | .throws _ => []
  | .resp status body =>
    if respOk status then
      [{ source := "CourtListener", found := courtFound body,
         data := .obj [("count", body.getFieldD "count"),
                       ("results", courtSlice body)],
         url := some ("https://www.courtlistener.com/?q=" ++ q ++ "&type=p"),
         timestamp := env.now }]
    else []

/-- The unconditional Manual Lookups result of `searchName` (seven
name-templated links, `found: true`). -/
def manualNameResult (env : NameEnv) (name : String) (state : Option String) :
    SearchResult :=
  let firstName := firstNameOf name
  let lastName := lastNameOf name
  let stateParam := match state with
    | some st => "&state=" ++ st
    | none => ""
  { source := "Manual Lookups", found := true,
    data := .obj [("links", .arr
      [.obj [("name", .str "LinkedIn"),
             ("url", .str ("https://www.linkedin.com/search/results/people/?keywords="
               ++ encodeURIComponent name))],
       .obj [("name", .str "Pipl"),
             ("url", .str ("https://pipl.com/search/?q="
               ++ encodeURIComponent name ++ stateParam))],
       .obj [("name", .str "WhitePages"),
             ("url", .str ("https://www.whitepages.com/name/"
               ++ firstName ++ "-" ++ lastName))],
       .obj [("name", .str "TruePeopleSearch"),
             ("url", .str ("https://www.truepeoplesearch.com/results?name="
               ++ encodeURIComponent name))],
       .obj [("name", .str "FastPeopleSearch"),
             ("url", .str ("https://www.fastpeoplesearch.com/name/"
               ++ firstName.toLower ++ "-" ++ lastName.toLower))],
       .obj [("name", .str "That\x27s Them"),
             ("url", .str ("https://thatsthem.com/name/"
               ++ firstName ++ "-" ++ lastName))],
       .obj [("name", .str "Radaris"),
             ("url", .str ("https://radaris.com/p/"
               ++ firstName ++ "/" ++ lastName ++ "/"))]])],
    url := none, timestamp := env.now }

/-- `searchName`: optional CourtListener result then the manual links. -/
def searchName (env : NameEnv) (name : String) (state : Option String) :
    List SearchResult :=
  courtPart env name ++ [manualNameResult env name state]

/-! ## The POST handler of the fetch-based search route -/

/-- The four members of the request's `type` union. -/
inductive QueryType where
  | email | phone | username | name
deriving DecidableEq

def QueryType.toName : QueryType → String
  | .email => "email"
  | .phone => "phone"
  | .username => "username"
  | .name => "name"

/-- The parsed request body after destructuring
`const { query, type, state, deepScan = false } = body`.  A missing or
empty `query` is the empty string (both are falsy); a missing `type` is
`none`. -/
structure SearchRequest where
  query : String
  type? : Option QueryType
  state? : Option String
  deepScan : Bool

/-- A caught JS exception: either an `Error` (carrying its `.message`)
or any other thrown value (carrying its `String(...)` rendering). -/
inductive JsError where
  | err (msg : String)
  | raw (s : String)

/-- `error instanceof Error ? error.message : 'Search failed'`. -/
def errMessage : JsError → String
  | .err m => m
  | .raw _ => "Search failed"

/-- JS `String(error)`: an `Error` renders as `Error: <message>`. -/
def jsStringOf : JsError → String
  | .err m => "Error: " ++ m
  | .raw s => s

/-- What reaches the handler: either `request.json()` (or anything else
inside the outer `try`) threw, or a request body was destructured. -/
inductive ReqEvent where
  | throws (e : JsError)
  | body (r : SearchRequest)

/-- Response bodies the embedded routes can produce. -/
inductive RespBody where
  | errMsg (e : String)
  | errDetails (e : String) (details : String)
  | profile (p : PersonProfile)

/-- An HTTP response: status code plus JSON body. -/
structure HttpResponse where
  status : Nat
  body : RespBody

/-- Combined provider environment for one request. -/
structure Env where
  email : EmailEnv
  username : UsernameEnv
  phone : PhoneEnv
  name : NameEnv

/-- The per-type dispatch of the handler's `switch (type)`. -/
def dispatch (env : Env) (t : QueryType) (r : SearchRequest) :
    List SearchResult :=
  match t with
  | .email => searchEmail env.email r.query r.deepScan
  | .username => searchUsername env.username r.query r.deepScan
  | .phone => searchPhone env.phone r.query
  | .name => searchName env.name r.query r.state?

/-- `results.filter(r => r.found).length`. -/
def foundCount (rs : List SearchResult) : Nat :=
  (rs.filter (fun r => r.found)).length

/-- Profile assembly (risk score and summary) from the handler. -/
def buildProfile (q : String) (t : QueryType) (rs : List SearchResult) :
    PersonProfile :=
  { query := q, query_type := t.toName, results := rs,
    risk_score := min 100 (foundCount rs * 15),
    summary := { total_sources := rs.length,
                 matches_found := foundCount rs,
                 sources_with_data :=
                   (rs.filter (fun r => r.found)).map (fun r => r.source) } }

/-- The `POST` handler of the fetch-based search route.  Validation runs
before any provider dispatch; a missing `type` yields the same
"Query and type are required" response regardless of `query`, so the
`!query || !type` guard is split across the outer match without changing
any response. -/
def POST (env : Env) (req : ReqEvent) : HttpResponse :=
  match req with
  | .throws e => ⟨500, .errMsg (errMessage e)⟩
  | .body r =>
    match r.type? with
    | none => ⟨400, .errMsg "Query and type are required"⟩
    | some t =>
      if r.query == "" then
        ⟨400, .errMsg "Query and type are required"⟩
      else if t == .email && !(r.query.contains '@') then
        ⟨400, .errMsg "Invalid email format"⟩
      else if t == .name && !(r.query.contains ' ') then
        ⟨400, .errMsg "Please provide first and last name"⟩
      else
        ⟨200, .profile (buildProfile r.query t (dispatch env t r))⟩

/-! ## The python-spawn search route -/

/-- First settling event of the spawned `people_search.py` process:
`close` carries the exit code, the raw accumulated stdout together with
its parse (`some p` when `JSON.parse(stdout)` yields a profile, `none`
when the parse throws), and the accumulated stderr; `errEvent` is the
spawn `error` event; `timeout` means the 2-minute timer fired first and
the process was killed. -/
inductive PyProcOutcome where
  | closed (code : Int) (stdoutRaw : String)
      (parsed : Option PersonProfile) (stderrRaw : String)
  | errEvent (msg : String)
  | timeout

/-- `runPythonSearch`: the promise's settlement.  A non-zero exit always
rejects (stdout is not salvaged); a zero exit with unparseable stdout
rejects; the timeout path kills the process and rejects with
`Search timed out`. -/
def runPythonSearch (proc : PyProcOutcome) : Except String PersonProfile :=
  match proc with
  | .closed code stdoutRaw parsed stderrRaw =>
    if code != 0 then
      .error ("Python script exited with code " ++ toString code ++ ": "
        ++ stderrRaw)
    else
      match parsed with
      | some p => .ok p
      | none => .error ("Failed to parse Python output: " ++ stdoutRaw)
  | .errEvent msg => .error msg
  | .timeout => .error "Search timed out"

/-- The `POST` handler of the python-spawn search route: the same
validation as the fetch-based route, then `runPythonSearch`; a rejected
promise is caught by the outer catch, which echoes `error.message`
with status 500. -/
def POSTPy (req : ReqEvent) (proc : PyProcOutcome) : HttpResponse :=
  match req with
  | .throws e => ⟨500, .errMsg (errMessage e)⟩
  | .body r =>
    match r.type? with
    | none => ⟨400, .errMsg "Query and type are required"⟩
    | some t =>
      if r.query == "" then
        ⟨400, .errMsg "Query and type are required"⟩
      else if t == .email && !(r.query.contains '@') then
        ⟨400, .errMsg "Invalid email format"⟩
      else if t == .name && !(r.query.contains ' ') then
        ⟨400, .errMsg "Please provide first and last name"⟩
      else
        match runPythonSearch proc with
        | .ok p => ⟨200, .profile p⟩
        | .error m => ⟨500, .errMsg m⟩

/-! ## The photo route -/

/-- One manual search link of `getManualSearchLinks`. -/
structure ManualLink where
  name : String
  url : String
  description : String
  kind : String

/-- `getManualSearchLinks()`: the fixed eight-entry fallback list (the
JS field `type` is named `kind` here). -/
def getManualSearchLinks : List ManualLink :=
  [⟨"PimEyes", "https://pimeyes.com/",
    "Best face recognition search - finds adult content, social media",
    "face_search"⟩,
   ⟨"FaceCheck.ID", "https://facecheck.id/",
    "Free face recognition search engine", "face_search"⟩,
   ⟨"Google Images", "https://images.google.com/",
    "Reverse image search", "reverse_search"⟩,
   ⟨"Yandex Images", "https://yandex.com/images/",
    "Best for finding social profiles", "reverse_search"⟩,
   ⟨"TinEye", "https://tineye.com/",
    "Find where this image appears online", "reverse_search"⟩,
   ⟨"Search4Faces", "https://search4faces.com/",
    "VK and OK.ru face search", "face_search"⟩,
   ⟨"SocialCatfish", "https://socialcatfish.com/",
    "Dating profile and identity search", "identity_search"⟩,
   ⟨"Lenso.ai", "https://lenso.ai/",
    "AI-powered face and image search", "face_search"⟩]

/-- The fallback object shape the photo route resolves with when the
python output is unusable. -/
structure PhotoFallback where
  face_analysis : Json
  reverse_search_links : List ManualLink
  risk_score : Nat
  employment_flags : List String
  note : Option String
  errorField : Option String

/-- What `runPhotoSearch` resolves with: either the parsed python JSON
(also salvaged from a non-zero exit) or a constructed fallback. -/
inductive PhotoResp where
  | parsed (j : Json)
  | fallback (f : PhotoFallback)

/-- First settling event of the spawned `photo_search.py` process
(stdout parse as in `PyProcOutcome`, but to arbitrary JSON). -/
inductive PhotoProcOutcome where
  | closed (code : Int) (stdoutRaw : String)
      (parsed : Option Json) (stderrRaw : String)
  | errEvent (msg : String)
  | timeout

/-- The fallback resolved when the 60-second timer fires: the process is
killed and the manual links substituted. -/
def photoTimeoutFallback : PhotoFallback :=
  { face_analysis := .obj [("error", .str "Analysis timed out")],
    reverse_search_links := getManualSearchLinks,
    risk_score := 0, employment_flags := [],
    note := some "Analysis timed out - use manual search links below",
    errorField := none }

/-- `runPhotoSearch`: never rejects.  Parseable stdout is used even on a
non-zero exit; otherwise a fallback carrying `getManualSearchLinks` is
resolved; a spawn failure and the timeout also resolve fallbacks. -/
def runPhotoSearch (proc : PhotoProcOutcome) : PhotoResp :=
  match proc with
  | .closed code _ parsed _ =>
    if code != 0 then
      match parsed with
      | some j => .parsed j
      | none =>
        .fallback { face_analysis := .null,
                    reverse_search_links := getManualSearchLinks,
                    risk_score := 0, employment_flags := [],
                    note := none,
                    errorField := some ("Photo analysis failed (code "
                      ++ toString code ++ ")") }
    else
      match parsed with
      | some j => .parsed j
      | none =>
        .fallback { face_analysis := .obj [("error", .str "Analysis unavailable")],
                    reverse_search_links := getManualSearchLinks,
                    risk_score := 0, employment_flags := [],
                    note := some
                      "DeepFace analysis unavailable - use manual search links below",
                    errorField := none }
  | .errEvent _ =>
    .fallback { face_analysis := .obj [("error", .str "Python not available")],
                reverse_search_links := getManualSearchLinks,
                risk_score := 0, employment_flags := [],
                note := some
                  "Automated analysis unavailable - use manual search links below",
                errorField := none }
  | .timeout => .fallback photoTimeoutFallback

/-- Response bodies of the photo route. -/
inductive PhotoRespBody where
  | errMsg (e : String)
  | errDetails (e : String) (details : String)
  | result (r : PhotoResp)

/-- A photo-route HTTP response. -/
structure PhotoHttpResponse where
  status : Nat
  body : PhotoRespBody

/-- What reaches the photo handler: the outer try threw, or a form was
parsed (with or without a `photo` file). -/
inductive PhotoReqEvent where
  | throws (e : JsError)
  | form (hasFile : Bool)

/-- The `POST` handler of the photo route: 400 without a file; otherwise
the `runPhotoSearch` resolution is returned with status 200 (the promise
never rejects); the catch clause includes `details: String(error)`. -/
def POSTPhoto (req : PhotoReqEvent) (proc : PhotoProcOutcome) :
    PhotoHttpResponse :=
  match req with
  | .throws e => ⟨500, .errDetails "Photo search failed" (jsStringOf e)⟩
  | .form hasFile =>
    if !hasFile then ⟨400, .errMsg "No photo provided"⟩
    else ⟨200, .result (runPhotoSearch proc)⟩

/-! ## Concrete fixtures (used by counterexamples and witnesses) -/

/-- A fixed capture timestamp for concrete runs. -/
def tsW : String := "2026-01-01T00:00:00.000Z"

/-- Email environment: no LeakCheck key, every fetch throws. -/
def emailEnvNone : EmailEnv :=
  ⟨none, .throws "x", .throws "x", .throws "x", "d41d8", tsW⟩

/-- Username environment: every fetch throws. -/
def userEnvNone : UsernameEnv := ⟨.throws "x", fun _ => .throws "x", tsW⟩

/-- Phone environment: no Numverify key, the fetch throws. -/
def phoneEnvNone : PhoneEnv := ⟨none, .throws "x", tsW⟩

/-- Name environment: the CourtListener fetch throws. -/
def nameEnvNone : NameEnv := ⟨.throws "x", tsW⟩

/-- Combined all-throwing, credential-free environment. -/
def envNone : Env := ⟨emailEnvNone, userEnvNone, phoneEnvNone, nameEnvNone⟩

/-- A concrete valid phone request. -/
def phoneReqW : SearchRequest := ⟨"5551234", some .phone, none, false⟩

/-- The profile the handler returns for `phoneReqW` under `envNone`. -/
def prof0 : PersonProfile :=
  match (POST envNone (.body phoneReqW)).body with
  | .profile p => p
  | _ => ⟨"", "", [], 0, ⟨0, 0, []⟩⟩

/-- Email environment in which only the GitHub fetch succeeds. -/
def emailEnvGh200 : EmailEnv := { emailEnvNone with github := .resp 200 (.obj []) }

/-- Email environment: LeakCheck configured and matching, GitHub probe
throwing, Gravatar responding 200. -/
def emailEnvC3 : EmailEnv :=
  { leakcheckKey := some "k",
    leakcheck := .resp 200 (.obj [("found", .bool true)]),
    github := .throws "boom", gravatar := .resp 200 .null,
    md5hex := "d41d8", now := tsW }

/-- Number of entries of the `links` array in a result's data mapping. -/
def dataLinksCount (r : SearchResult) : Option Nat :=
  match r.data.getField "links" with
  | some (.arr xs) => some xs.length
  | _ => none

/-! ## Helper lemmas -/

theorem lcPart_length_le (e : EmailEnv) (em : String) :
    (lcPart e em).length ≤ 1 := by
  cases hk : e.leakcheckKey <;> cases hl : e.leakcheck <;>
    simp [lcPart, hk, hl]

theorem ghEmailPart_length_le (e : EmailEnv) (em : String) :
    (ghEmailPart e em).length ≤ 1 := by
  cases h : e.github with
  | throws m => simp [ghEmailPart, h]
  | resp s b =>
    simp only [ghEmailPart, h]
    split <;> simp

theorem gravatarPart_length_le (e : EmailEnv) (em : String) :
    (gravatarPart e em).length ≤ 1 := by
  cases h : e.gravatar with
  | throws m => simp [gravatarPart, h]
  | resp s b =>
    simp only [gravatarPart, h]
    split <;> simp

theorem numverifyPart_length_le (e : PhoneEnv) (p : String) :
    (numverifyPart e p).length ≤ 1 := by
  cases hk : e.numverifyKey <;> cases hl : e.numverify <;>
    simp [numverifyPart, hk, hl]

theorem courtPart_length_le (e : NameEnv) (n : String) :
    (courtPart e n).length ≤ 1 := by
  cases h : e.court with
  | throws m => simp [courtPart, h]
  | resp s b =>
    simp only [courtPart, h]
    split <;> simp

theorem searchUsername_length_eq (e : UsernameEnv) (u : String) (ds : Bool) :
    (searchUsername e u ds).length = 11 := by
  simp [searchUsername, platformResults, socialPlatforms]

theorem searchPhone_foundCount_ge_two (env : PhoneEnv) (p : String) :
    2 ≤ foundCount (searchPhone env p) := by
  simp [searchPhone, foundCount, List.filter_append, phoneParserResult,
    manualPhoneResult]

/-! ## Claims -/

/-- Claim C1 (confirmed): for every request that passes validation (the
handler returns 200 with a profile), the profile's risk score equals
`min(100, 15 * number of results with found = true)`, hence lies in
`[0, 100]` (the lower bound is automatic in `Nat`). -/
theorem riskScore_formula (env : Env) (req : ReqEvent) (p : PersonProfile)
    (h : POST env req = ⟨200, .profile p⟩) :
    p.risk_score = min 100 (15 * foundCount p.results) ∧
      p.risk_score ≤ 100 := by
  cases req with
  | throws e => simp [POST] at h
  | body r =>
    cases hr : r.type? with
    | none => simp [POST, hr] at h
    | some t =>
      simp only [POST, hr] at h
      split at h
      · simp at h
      · split at h
        · simp at h
        · split at h
          · simp at h
          · simp only [HttpResponse.mk.injEq, RespBody.profile.injEq] at h
            obtain ⟨-, h2⟩ := h
            subst h2
            refine ⟨by simp [buildProfile, Nat.mul_comm], ?_⟩
            simp [buildProfile]

/-- Witness for claim C1: a concrete phone request under the
all-throwing environment returns a profile, and the scoring identity
holds for it. -/
theorem riskScore_formula_witness :
    POST envNone (.body phoneReqW) = ⟨200, .profile prof0⟩ ∧
    (prof0.risk_score = min 100 (15 * foundCount prof0.results) ∧
      prof0.risk_score ≤ 100) :=
  ⟨rfl, riskScore_formula envNone (.body phoneReqW) prof0 rfl⟩

/-- Claim C2 (counterexample): the result count is NOT one-per-registered
provider.  For the same email query, an environment where every probe
fails yields zero results, while one where only the GitHub fetch
succeeds yields one — the count varies with provider success, so no
fixed per-type registry count exists. -/
theorem results_count_not_fixed :
    (searchEmail emailEnvNone "a@b.c" false).length = 0 ∧
    (searchEmail emailEnvGh200 "a@b.c" false).length = 1 := ⟨rfl, rfl⟩

/-- Claim C2 (amended): only username queries have a fixed result count
(eleven, one per provider regardless of outcomes).  Phone queries yield
2–3 results (Numverify only with a key and a non-throwing fetch), email
queries 0–3 (LeakCheck only with a key; GitHub and Gravatar only on
success), name queries 1–2 (CourtListener only on success), for every
deep-scan setting. -/
theorem results_count_amended (eU : UsernameEnv) (u : String) (dU : Bool)
    (eP : PhoneEnv) (p : String) (eE : EmailEnv) (em : String) (dE : Bool)
    (eN : NameEnv) (nm : String) (st : Option String) :
    (searchUsername eU u dU).length = 11 ∧
    (2 ≤ (searchPhone eP p).length ∧ (searchPhone eP p).length ≤ 3) ∧
    (searchEmail eE em dE).length ≤ 3 ∧
    (1 ≤ (searchName eN nm st).length ∧
      (searchName eN nm st).length ≤ 2) := by
  have h1 := numverifyPart_length_le eP p
  have h2 := lcPart_length_le eE em
  have h3 := ghEmailPart_length_le eE em
  have h4 := gravatarPart_length_le eE em
  have h5 := courtPart_length_le eN nm
  refine ⟨searchUsername_length_eq eU u dU, ?_, ?_, ?_⟩ <;>
    simp [searchPhone, searchEmail, searchName] <;> omega

/-- Claim C3 (counterexample): a provider failure does not always leave
a `found = false` result with an error descriptor.  With LeakCheck and
Gravatar succeeding and the GitHub probe throwing, the batch has only
two results and no GitHub entry at all — the failing provider
contributed nothing. -/
theorem failing_provider_no_entry :
    (searchEmail emailEnvC3 "a@b.c" false).length = 2 ∧
    (searchEmail emailEnvC3 "a@b.c" false).map (fun r => r.source) =
      ["LeakCheck", "Gravatar"] := ⟨rfl, rfl⟩

/-- Claim C3 (amended): a failure in one provider's probe never aborts
the batch — every other provider's result is exactly what its own
outcome determines — but the failing provider's own contribution is
provider-specific: the username-route GitHub probe yields `found=false`
with an error descriptor, a social-platform probe yields `found=false`
with an empty data object (no error descriptor), and the email-route
GitHub probe contributes no entry at all. -/
theorem provider_failure_isolation (now : String)
    (plat : String → FetchOutcome) (g g2 : FetchOutcome)
    (u : String) (d : Bool) (m : String)
    (k : Option String) (lc gv : FetchOutcome) (em : String)
    (h5 : String) (pf : Platform) :
    searchUsername ⟨.throws m, plat, now⟩ u d =
      { source := "GitHub", found := false,
        data := .obj [("error", .str m)], url := none, timestamp := now }
        :: platformResults ⟨.throws m, plat, now⟩ u ∧
    platformResults ⟨g, plat, now⟩ u = platformResults ⟨g2, plat, now⟩ u ∧
    checkPlatform ⟨g, fun _ => .throws m, now⟩ pf =
      { source := pf.name, found := false, data := .obj [],
        url := none, timestamp := now } ∧
    searchEmail ⟨k, lc, .throws m, gv, h5, now⟩ em d =
      lcPart ⟨k, lc, .throws m, gv, h5, now⟩ em ++
        gravatarPart ⟨k, lc, .throws m, gv, h5, now⟩ em := by
  refine ⟨rfl, rfl, rfl, ?_⟩
  simp [searchEmail, ghEmailPart]

/-- Claim C4 (confirmed): for non-empty queries with a declared type,
validation yields 400 exactly for an email without `@` (with error
"Invalid email format") or a name without a space (with error "Please
provide first and last name"); phone and username queries always pass;
a 400 is decided before any probe runs (the response is independent of
every provider environment); anything that passes validation gets 200. -/
theorem validation_gate (env : Env) (q : String) (t : QueryType)
    (st : Option String) (ds : Bool) (hq : q ≠ "") :
    ((t = .email ∧ q.contains '@' = false) →
        POST env (.body ⟨q, some t, st, ds⟩) =
          ⟨400, .errMsg "Invalid email format"⟩)
    ∧ ((t = .name ∧ q.contains ' ' = false) →
        POST env (.body ⟨q, some t, st, ds⟩) =
          ⟨400, .errMsg "Please provide first and last name"⟩)
    ∧ ((POST env (.body ⟨q, some t, st, ds⟩)).status = 400 ↔
        ((t = .email ∧ q.contains '@' = false) ∨
         (t = .name ∧ q.contains ' ' = false)))
    ∧ ((POST env (.body ⟨q, some t, st, ds⟩)).status = 400 →
        ∀ env2 : Env, POST env2 (.body ⟨q, some t, st, ds⟩) =
          POST env (.body ⟨q, some t, st, ds⟩))
    ∧ ((POST env (.body ⟨q, some t, st, ds⟩)).status ≠ 400 →
        (POST env (.body ⟨q, some t, st, ds⟩)).status = 200) := by
  have h0 : (q == "") = false := beq_eq_false_iff_ne.mpr hq
  cases t with
  | email => cases hct : q.contains '@' <;> simp [POST, h0, hct]
  | name => cases hct : q.contains ' ' <;> simp [POST, h0, hct]
  | phone => simp [POST, h0]
  | username => simp [POST, h0]

/-- Witness for claim C4: the malformed email "no-at-sign" concretely
satisfies the validation characterization. -/
theorem validation_gate_witness :
    ("no-at-sign" : String) ≠ "" ∧
    (((QueryType.email = .email ∧
        ("no-at-sign" : String).contains '@' = false) →
        POST envNone (.body ⟨"no-at-sign", some .email, none, false⟩) =
          ⟨400, .errMsg "Invalid email format"⟩)
     ∧ ((QueryType.email = .name ∧
        ("no-at-sign" : String).contains ' ' = false) →
        POST envNone (.body ⟨"no-at-sign", some .email, none, false⟩) =
          ⟨400, .errMsg "Please provide first and last name"⟩)
     ∧ ((POST envNone
          (.body ⟨"no-at-sign", some .email, none, false⟩)).status = 400 ↔
        ((QueryType.email = .email ∧
          ("no-at-sign" : String).contains '@' = false) ∨
         (QueryType.email = .name ∧
          ("no-at-sign" : String).contains ' ' = false)))
     ∧ ((POST envNone
          (.body ⟨"no-at-sign", some .email, none, false⟩)).status = 400 →
        ∀ env2 : Env, POST env2 (.body ⟨"no-at-sign", some .email, none, false⟩) =
          POST envNone (.body ⟨"no-at-sign", some .email, none, false⟩))
     ∧ ((POST envNone
          (.body ⟨"no-at-sign", some .email, none, false⟩)).status ≠ 400 →
        (POST envNone
          (.body ⟨"no-at-sign", some .email, none, false⟩)).status = 200)) :=
  ⟨by decide, validation_gate envNone "no-at-sign" .email none false (by decide)⟩

/-- Claim C5 (counterexample): the python-search probe's timeout IS
surfaced to the caller: the promise rejects with "Search timed out" and
a valid phone request gets an HTTP 500 carrying that message instead of
a fallback result. -/
theorem python_timeout_surfaced :
    runPythonSearch .timeout = .error "Search timed out" ∧
    POSTPy (.body ⟨"5551234", some .phone, none, false⟩) .timeout =
      ⟨500, .errMsg "Search timed out"⟩ := ⟨rfl, rfl⟩

/-- Claim C5 (amended): only the photo-search probe degrades on timeout:
it kills the process and resolves the guaranteed-non-empty manual-links
fallback (eight links), which the photo route returns with HTTP 200;
the python-search probe kills the process but rejects with "Search timed
out", which its route surfaces as a user-facing HTTP 500. -/
theorem timeout_amended :
    runPhotoSearch .timeout = .fallback photoTimeoutFallback ∧
    photoTimeoutFallback.reverse_search_links.length = 8 ∧
    POSTPhoto (.form true) .timeout =
      ⟨200, .result (.fallback photoTimeoutFallback)⟩ ∧
    runPythonSearch .timeout = .error "Search timed out" ∧
    (∀ (q : String) (st : Option String) (ds : Bool),
      POSTPy (.body ⟨q, some .username, st, ds⟩) .timeout =
        if q == "" then ⟨400, .errMsg "Query and type are required"⟩
        else ⟨500, .errMsg "Search timed out"⟩) := by
  refine ⟨rfl, rfl, rfl, rfl, ?_⟩
  intro q st ds
  cases hq : q == "" <;> simp [POSTPy, hq, runPythonSearch]

/-- Claim C6 (counterexample): internal exception detail IS echoed: an
`Error` escaping to the outer catch produces a 500 whose body carries
the error's own message, not the generic "Search failed". -/
theorem internal_error_echoed :
    POST envNone (.throws (.err "connect ECONNREFUSED 127.0.0.1:443")) =
      ⟨500, .errMsg "connect ECONNREFUSED 127.0.0.1:443"⟩ ∧
    "connect ECONNREFUSED 127.0.0.1:443" ≠ "Search failed" := ⟨rfl, by decide⟩

/-- Claim C6 (amended): unexpected internal failures do yield HTTP 500,
but the body is the generic "Search failed" only when the thrown value
is not an `Error`; an `Error`'s own message is echoed to the caller,
and the photo route echoes `String(error)` in a details field. -/
theorem internal_error_amended (env : Env) (m s : String) (e : JsError)
    (proc : PhotoProcOutcome) :
    POST env (.throws (.err m)) = ⟨500, .errMsg m⟩ ∧
    POST env (.throws (.raw s)) = ⟨500, .errMsg "Search failed"⟩ ∧
    POSTPhoto (.throws e) proc =
      ⟨500, .errDetails "Photo search failed" (jsStringOf e)⟩ :=
  ⟨rfl, rfl, rfl⟩

/-- Claim C7 (counterexample): the deep-scan flag does not widen the
provider set: for a concrete email and username query the results with
the flag on are identical to those with it off (still a single email
result, not a widened set). -/
theorem deep_scan_no_effect_counterexample :
    searchEmail emailEnvGh200 "a@b.c" true =
      searchEmail emailEnvGh200 "a@b.c" false ∧
    searchUsername userEnvNone "bob" true =
      searchUsername userEnvNone "bob" false ∧
    (searchEmail emailEnvGh200 "a@b.c" true).length = 1 := ⟨rfl, rfl, rfl⟩

/-- Claim C7 (amended): the deep-scan flag is accepted by the request
shape but ignored by every search function and by the handler: for
every query and every provider environment the results and the whole
response are identical with the flag on and off. -/
theorem deep_scan_ignored (env : Env) (e u q : String)
    (t : Option QueryType) (st : Option String) :
    searchEmail env.email e true = searchEmail env.email e false ∧
    searchUsername env.username u true = searchUsername env.username u false ∧
    POST env (.body ⟨q, t, st, true⟩) = POST env (.body ⟨q, t, st, false⟩) := by
  refine ⟨rfl, rfl, ?_⟩
  rcases t with _ | tt
  · rfl
  · cases tt <;> rfl

/-- Claim C8 (confirmed): for the two query types that include the
manual-links provider (phone and name), the Manual Lookups result is
the last entry of the batch, unconditionally of every other provider's
outcome, with `found = true` and a non-empty links list (five links for
phone, seven for name). -/
theorem manual_links_always_found (envP : PhoneEnv) (p : String)
    (envN : NameEnv) (n : String) (st : Option String) :
    ((searchPhone envP p).getLast? = some (manualPhoneResult envP p) ∧
     (manualPhoneResult envP p).found = true ∧
     dataLinksCount (manualPhoneResult envP p) = some 5) ∧
    ((searchName envN n st).getLast? = some (manualNameResult envN n st) ∧
     (manualNameResult envN n st).found = true ∧
     dataLinksCount (manualNameResult envN n st) = some 7) := by
  refine ⟨⟨?_, rfl, rfl⟩, ⟨?_, rfl, rfl⟩⟩
  · rw [searchPhone, List.getLast?_concat]
  · rw [searchName, List.getLast?_concat]

/-- Claim C9 (confirmed): every phone query that passes validation gets
a risk score of at least 30, because the Phone Parser and Manual
Lookups results always carry `found = true` whatever the network
outcomes and configured credentials are. -/
theorem phone_risk_ge_30 (env : Env) (p : String) (st : Option String)
    (ds : Bool) (pr : PersonProfile) (hp : p ≠ "")
    (h : POST env (.body ⟨p, some .phone, st, ds⟩) = ⟨200, .profile pr⟩) :
    30 ≤ pr.risk_score := by
  have h0 : (p == "") = false := beq_eq_false_iff_ne.mpr hp
  simp [POST, h0] at h
  subst h
  have hf := searchPhone_foundCount_ge_two env.phone p
  simp [buildProfile, dispatch]
  omega

/-- Witness for claim C9: the concrete phone request under the
all-throwing credential-free environment has risk score at least 30. -/
theorem phone_risk_ge_30_witness :
    ("5551234" : String) ≠ "" ∧ 30 ≤ prof0.risk_score :=
  ⟨by decide, phone_risk_ge_30 envNone "5551234" none false prof0 (by decide) rfl⟩

/-- Claim C10 (confirmed): every username query yields exactly eleven
results in a fixed order — the GitHub result first, then the ten social
platforms in their declared list order — for every combination of probe
outcomes. -/
theorem username_results_fixed_order (env : UsernameEnv) (u : String)
    (ds : Bool) :
    (searchUsername env u ds).length = 11 ∧
    (searchUsername env u ds).map (fun r => r.source) =
      "GitHub" :: (socialPlatforms u).map (fun p => p.name) ∧
    (socialPlatforms u).map (fun p => p.name) =
      ["Twitter/X", "Instagram", "TikTok", "Reddit", "Pinterest",
       "LinkedIn", "YouTube", "Twitch", "Medium", "DevTo"] := by
  refine ⟨searchUsername_length_eq env u ds, ?_, by simp [socialPlatforms]⟩
  simp only [searchUsername, platformResults, List.map_cons, List.map_map]
  refine List.cons_eq_cons.mpr ⟨?_, ?_⟩
  · cases h : env.github with
    | throws m => simp [ghUserResult, h]
    | resp s b =>
      simp only [ghUserResult, h]
      split <;> rfl
  · apply List.map_congr_left
    intro p hp
    cases h : env.platforms p.name <;> simp [checkPlatform, Function.comp, h]
